import Mathlib

/-!
# Verification of the Minecraft forwarding translation proxy

A shallow embedding of the proxy's packet codec, framing, forwarding-data
builder, HMAC validator and connection state machine, together with theorems
settling the specification claims.

Conventions of the embedding:
* Byte streams are `List Nat` (each element is one byte, `< 256` on real
  inputs); a reader is a function `List Nat → Except RdErr (α × List Nat)`
  returning the parsed value and the unconsumed rest of the stream.
* Rust `i32` values are carried as `Int` with explicit wrapping
  (`wrapI32`); `usize` casts are made explicit (`i32ToUsize`, `usizeToI32`).
* Rust strings are carried as their UTF-8 byte sequences (`List Nat`);
  the lossy UTF-8 decode of `MCString::read` is modelled as the identity
  on the raw bytes (exact for the valid-UTF-8 inputs the claims speak of).
* Loops of the source that need not terminate (the `while temp != 0` loop of
  `VarInt::try_from` and the encode loop of `VarInt::write`, both of which
  use an arithmetic right shift) take a `fuel : Nat`; exhausting the fuel is
  reported as `RdErr.diverged` / `Option.none`, so a result of `diverged`
  for every fuel exhibits true non-termination of the source loop.
* Rust panics (`unwrap` on `Err`, unchecked `usize` underflow in a debug
  build) are reported as `RdErr.panicked`.
-/

namespace MFTP

/-- Error outcomes of an embedded operation. `io` stands for any
`tokio::io::Error` (end of stream, propagated errors, and the
`InvalidData` errors the source wraps into `io::Error`); `panicked`
stands for a Rust panic; `diverged` stands for running out of fuel in a
loop of the source that does not terminate on its own. -/
inductive RdErr where
  | io
  | panicked
  | diverged
deriving Repr, DecidableEq

/-- Interpret the low 32 bits of a natural number as a two's-complement
`i32` value. -/
def toI32 (n : Nat) : Int :=
  if n % 2 ^ 32 < 2 ^ 31 then ((n % 2 ^ 32 : Nat) : Int)
  else ((n % 2 ^ 32 : Nat) : Int) - 2 ^ 32

/-- Wrap an integer into the `i32` range (two's complement). -/
def wrapI32 (x : Int) : Int :=
  (x + 2 ^ 31).emod (2 ^ 32) - 2 ^ 31

/-- Rust `v as usize` applied to an `i32` value: sign-extend to 64 bits and
reinterpret as an unsigned quantity. -/
def i32ToUsize (v : Int) : Nat :=
  (v.emod (2 ^ 64)).toNat

/-- Rust `n as i32` applied to a `usize` value: truncate to the low 32 bits
and reinterpret as two's complement. -/
def usizeToI32 (n : Nat) : Int :=
  toI32 (n % 2 ^ 64)

/-! ## VarInt (src/types.rs) -/

/-- The `VarInt` struct of `types.rs`: the decoded `i32` value and the
stored `bytes_needed : u8`. -/
structure VarIntT where
  value : Int
  bytesNeeded : Nat
deriving Repr, DecidableEq

/-- `VarInt::byte_size`. -/
def VarIntT.byteSize (v : VarIntT) : Nat := v.bytesNeeded

/-- The `while temp != 0 { temp >>= 7; count += 1 }` loop of
`VarInt::try_from`. `temp >>= 7` on an `i32` is an arithmetic shift,
i.e. flooring division by 128. `none` means the fuel ran out. -/
def bytesNeededLoop : Nat → Int → Nat → Option Nat
  | 0, _, _ => none
  | fuel + 1, temp, count =>
      if temp = 0 then some count
      else bytesNeededLoop fuel (Int.fdiv temp 128) (count + 1)

/-- Result of `VarInt::try_from` (a `Result<VarInt, &'static str>` in the
source, with `divr` marking fuel exhaustion of its loop). -/
inductive TryFromRes where
  | divr
  | err
  | ok (v : VarIntT)
deriving Repr, DecidableEq

/-- `VarInt::try_from` (`types.rs:38-62`): compute `bytes_needed` by the
shift loop (`1` for the zero value), fail if it exceeds 5. -/
def varIntTryFrom (fuel : Nat) (value : Int) : TryFromRes :=
  let bn? := if value = 0 then some 1 else bytesNeededLoop fuel value 0
  match bn? with
  | none => .divr
  | some bn => if bn > 5 then .err else .ok ⟨value, bn⟩

/-- `VarInt::new(x).unwrap()`: a failed construction is a panic. -/
def varIntNewUnwrap (fuel : Nat) (value : Int) : Except RdErr VarIntT :=
  match varIntTryFrom fuel value with
  | .divr => .error .diverged
  | .err => .error .panicked
  | .ok v => .ok v

/-- The read loop of `VarInt::read` (`types.rs:64-92`): take a byte, OR its
low seven bits (shifted by `7 * num_read`, wrapping at 32 bits as the Rust
`<<` does) into the accumulator, error on the sixth byte, stop when the
continuation bit is clear. -/
def varIntReadLoop : List Nat → Nat → Nat → Except RdErr (VarIntT × List Nat)
  | [], _, _ => .error .io
  | b :: rest, numRead, acc =>
      let value := b % 128
      let acc' := acc ||| ((value <<< (7 * numRead)) % 2 ^ 32)
      let numRead' := numRead + 1
      if numRead' > 5 then .error .io
      else if b < 128 then .ok (⟨toI32 acc', numRead'⟩, rest)
      else varIntReadLoop rest numRead' acc'

/-- `VarInt::read`. -/
def varIntRead (input : List Nat) : Except RdErr (VarIntT × List Nat) :=
  varIntReadLoop input 0 0

/-- The encode loop of `VarInt::write` (`types.rs:94-112`): emit the low
seven bits, arithmetic-shift the value right by 7, set the continuation bit
when more remains, stop when the shifted value is zero. `none` means the
fuel ran out (the source loop never terminates for negative values). -/
def varIntWriteLoop : Nat → Int → List Nat → Option (List Nat)
  | 0, _, _ => none
  | fuel + 1, value, buf =>
      let temp := (Int.emod value 128).toNat
      let value' := Int.fdiv value 128
      let byte := if value' ≠ 0 then temp + 128 else temp
      let buf' := buf ++ [byte]
      if value' = 0 then some buf' else varIntWriteLoop fuel value' buf'

/-- `VarInt::write`, as the byte list it appends to its writer. -/
def varIntWrite (fuel : Nat) (v : VarIntT) : Option (List Nat) :=
  varIntWriteLoop fuel v.value []

/-! ## MCString (src/types.rs) -/

/-- The `MCString` struct of `types.rs`: the VarInt length prefix as read or
constructed, and the string value as its byte sequence. -/
structure MCStringT where
  length : VarIntT
  value : List Nat
deriving Repr, DecidableEq

/-- `MCString::byte_size`. -/
def MCStringT.byteSize (s : MCStringT) : Nat :=
  s.length.byteSize + s.value.length

/-- `read_exact` on a byte-list stream: take exactly `n` bytes or fail. -/
def readExact (n : Nat) (input : List Nat) : Except RdErr (List Nat × List Nat) :=
  if n ≤ input.length then .ok (input.take n, input.drop n) else .error .io

/-- `read_u8`. -/
def readU8 : List Nat → Except RdErr (Nat × List Nat)
  | [] => .error .io
  | b :: rest => .ok (b, rest)

/-- `read_u16` (big endian). -/
def readU16 (input : List Nat) : Except RdErr (Nat × List Nat) :=
  match input with
  | b0 :: b1 :: rest => .ok (b0 * 256 + b1, rest)
  | _ => .error .io

/-- `read_u128` (big endian, 16 bytes). -/
def readU128 (input : List Nat) : Except RdErr (Nat × List Nat) := do
  let (bytes, rest) ← readExact 16 input
  .ok (bytes.foldl (fun acc b => acc * 256 + b) 0, rest)

/-- `MCString::read` (`types.rs:141-149`): read a VarInt length `L`, then
exactly `L as usize` bytes. No maximum length is enforced (the source
carries a `TODO: Enforce max length of MCString`). The lossy UTF-8 decode
is modelled as keeping the raw bytes. -/
def mcStringRead (input : List Nat) : Except RdErr (MCStringT × List Nat) := do
  let (length, r1) ← varIntRead input
  let (buffer, r2) ← readExact (i32ToUsize length.value) r1
  .ok (⟨length, buffer⟩, r2)

/-- Result of `MCString::new` (`Result<MCString, &'static str>`). -/
inductive NewRes where
  | divr
  | err
  | ok (s : MCStringT)
deriving Repr, DecidableEq

/-- `MCString::new` (`types.rs:127-133`): build the VarInt length from
`value.len() as i32`, fail if the value is longer than 32767 bytes. -/
def mcStringNew (fuel : Nat) (value : List Nat) : NewRes :=
  match varIntTryFrom fuel (usizeToI32 value.length) with
  | .divr => .divr
  | .err => .err
  | .ok length => if length.value > 32767 then .err else .ok ⟨length, value⟩

/-- `MCString::write`: VarInt length prefix followed by the value bytes. -/
def mcStringWrite (fuel : Nat) (s : MCStringT) : Option (List Nat) :=
  (varIntWrite fuel s.length).map (· ++ s.value)

/-! ## GenericPacket (src/src/packets/generic.rs) -/

/-- `GenericPacket`: an opaque byte record. -/
structure GenericPacketT where
  data : List Nat
deriving Repr, DecidableEq

/-- `GenericPacket::read` (`generic.rs:82-93`): read exactly
`expected_length as usize` bytes into `data`. -/
def genericPacketRead (expectedLength : VarIntT) (input : List Nat) :
    Except RdErr (GenericPacketT × List Nat) := do
  let (data, rest) ← readExact (i32ToUsize expectedLength.value) input
  .ok (⟨data⟩, rest)

/-! ## Packet framing: read side (src/src/packets/packet_read.rs) -/

/-- Result of `read_packet_general`: the four outcomes of
`Result<P, ReadPacketError>`, plus panic and fuel exhaustion. The
unconsumed rest of the stream is carried where the source's socket keeps
its position. -/
inductive ReadPacketRes (β : Type) where
  | ok (p : β) (rest : List Nat)
  | ioErr
  | invalidPacketId (expected got : Nat) (packet : GenericPacketT) (rest : List Nat)
  | sizeMismatch (expected got : Nat) (rest : List Nat)
  | panicked
  | diverged
deriving Repr, DecidableEq

/-- `read_packet_general` (`packet_read.rs:75-120`), parameterised by the
per-type body reader and `byte_size`. Read the VarInt packet length; when a
packet ID is expected, read one byte and on a mismatch build
`vec![0u8; packet_length]`, push the read ID byte, then `read_exact` into
the whole buffer (which overwrites every byte of it, the pushed ID byte
included, with `packet_length + 1` fresh bytes from the stream) and return
`InvalidPacketId` with `GenericPacket::read` applied to that buffer.
Otherwise subtract the ID byte from the length via
`VarInt::new(..).unwrap()`, run the body reader and compare the consumed
size, draining on an under-read and failing on an over-read. -/
def readPacketBodyStep (bodyRead : VarIntT → List Nat → Except RdErr (β × List Nat))
    (bodySize : β → Nat) (packetLength' : VarIntT) (r2 : List Nat) : ReadPacketRes β :=
  match bodyRead packetLength' r2 with
  | .error .io => .ioErr
  | .error .panicked => .panicked
  | .error .diverged => .diverged
  | .ok (packet, r3) =>
    let packetSize := bodySize packet
    let pl := i32ToUsize packetLength'.value
    if pl ≠ packetSize then
      if pl < packetSize then .sizeMismatch pl packetSize r3
      else
        match readExact (pl - packetSize) r3 with
        | .error _ => .ioErr
        | .ok (_, r4) => .ok packet r4
    else .ok packet r3

/-- `read_packet_general` proper; `readPacketBodyStep` above is its steps
3-5 (adjusted-length body read and size check). -/
def readPacketGeneral (fuel : Nat) (bodyRead : VarIntT → List Nat → Except RdErr (β × List Nat))
    (bodySize : β → Nat) (packetId : Option Nat) (input : List Nat) : ReadPacketRes β :=
  match varIntRead input with
  | .error _ => .ioErr
  | .ok (packetLength, r1) =>
    match packetId with
    | some pid =>
      match readU8 r1 with
      | .error _ => .ioErr
      | .ok (readPacketId, r2) =>
        if readPacketId ≠ pid then
          let buffer := List.replicate (i32ToUsize packetLength.value) 0 ++ [readPacketId]
          match readExact buffer.length r2 with
          | .error _ => .ioErr
          | .ok (buffer', r3) =>
            match genericPacketRead packetLength buffer' with
            | .error _ => .ioErr
            | .ok (packet, _) => .invalidPacketId pid readPacketId packet r3
        else
          match varIntNewUnwrap fuel (wrapI32 (packetLength.value - 1)) with
          | .error .diverged => .diverged
          | .error _ => .panicked
          | .ok packetLength' => readPacketBodyStep bodyRead bodySize packetLength' r2
    | none =>
      match varIntNewUnwrap fuel (wrapI32 (packetLength.value - 0)) with
      | .error .diverged => .diverged
      | .error _ => .panicked
      | .ok packetLength' => readPacketBodyStep bodyRead bodySize packetLength' r1

/-! ## Packet framing: write side (src/src/packets/packet_write.rs) -/

/-- `write_packet_general` (`packet_write.rs:50-74`): build
`VarInt(byte_size) || [packet_id] || body` as one buffer. A failed
`VarInt::new` is mapped to an `InvalidData` io error (not a panic); `body`
is the byte production of the packet's own `write`, `none` when one of its
VarInt encode loops ran out of fuel. -/
def writePacketGeneral (fuel : Nat) (byteSize : Nat) (packetId : Option Nat)
    (body : Option (List Nat)) : Except RdErr (List Nat) :=
  match varIntTryFrom fuel (usizeToI32 byteSize) with
  | .divr => .error .diverged
  | .err => .error .io
  | .ok packetSize =>
    match varIntWrite fuel packetSize, body with
    | some sizeBytes, some bodyBytes =>
      .ok (sizeBytes ++ (match packetId with | some pid => [pid] | none => []) ++ bodyBytes)
    | _, _ => .error .diverged

/-- `write_packet` for a `Managed` packet (`packet_write.rs:82-86`):
`byte_size + 1` and the fixed packet ID. -/
def writePacketManaged (fuel : Nat) (pid : Nat) (byteSize : Nat) (body : Option (List Nat)) :
    Except RdErr (List Nat) :=
  writePacketGeneral fuel (byteSize + 1) (some pid) body

/-- `write_packet` for a `Manual` packet (`packet_write.rs:76-80`); for
`GenericPacket` the body is its `data` verbatim. -/
def writePacketManual (fuel : Nat) (p : GenericPacketT) : Except RdErr (List Nat) :=
  writePacketGeneral fuel p.data.length none (some p.data)

/-! ## Handshake and LoginStart (src/src/packets/handshake.rs, login_start.rs) -/

/-- The ASCII bytes of a Lean string literal (all literals used here are
ASCII, where `Char.toNat` is the UTF-8 byte). -/
def strBytes (s : String) : List Nat :=
  s.data.map Char.toNat

/-- The `Handshake` struct. -/
structure HandshakeT where
  protocolVersion : VarIntT
  serverAddress : MCStringT
  serverPort : Nat
  nextState : VarIntT
deriving Repr, DecidableEq

/-- `Handshake` body reader (`handshake.rs:71-83`): protocol version,
server address, port, next state. The `expected_length` argument is unused
by the source as well. -/
def handshakeBodyRead (_expectedLength : VarIntT) (input : List Nat) :
    Except RdErr (HandshakeT × List Nat) := do
  let (protocolVersion, r1) ← varIntRead input
  let (serverAddress, r2) ← mcStringRead r1
  let (serverPort, r3) ← readU16 r2
  let (nextState, r4) ← varIntRead r3
  .ok (⟨protocolVersion, serverAddress, serverPort, nextState⟩, r4)

/-- `Handshake::byte_size` (`handshake.rs:63-68`). -/
def handshakeByteSize (h : HandshakeT) : Nat :=
  h.protocolVersion.byteSize + h.serverAddress.byteSize + 2 + h.nextState.byteSize

/-- `Handshake` body writer (`handshake.rs:85-92`). -/
def handshakeBodyWrite (fuel : Nat) (h : HandshakeT) : Option (List Nat) := do
  let pv ← varIntWrite fuel h.protocolVersion
  let sa ← mcStringWrite fuel h.serverAddress
  let ns ← varIntWrite fuel h.nextState
  some (pv ++ sa ++ [h.serverPort / 256 % 256, h.serverPort % 256] ++ ns)

/-- The `LoginStart` struct. -/
structure LoginStartT where
  username : MCStringT
deriving Repr, DecidableEq

/-- `LoginStart` body reader (`login_start.rs:21-30`). -/
def loginStartBodyRead (_expectedLength : VarIntT) (input : List Nat) :
    Except RdErr (LoginStartT × List Nat) := do
  let (username, r1) ← mcStringRead input
  .ok (⟨username⟩, r1)

/-- `LoginStart::byte_size`. -/
def loginStartByteSize (l : LoginStartT) : Nat :=
  l.username.byteSize

/-- `LoginStart` body writer. -/
def loginStartBodyWrite (fuel : Nat) (l : LoginStartT) : Option (List Nat) :=
  mcStringWrite fuel l.username

/-! ## Forwarding-data builder (src/src/packets/handshake.rs:17-57) -/

/-- A profile `Property` of the plugin response. -/
structure PropertyT where
  name : MCStringT
  value : MCStringT
  signature : Option MCStringT
deriving Repr, DecidableEq

/-- `Property::byte_size` (`velocity_plugin_response.rs:28-35`). -/
def propertyByteSize (p : PropertyT) : Nat :=
  p.name.byteSize + p.value.byteSize + 1 +
    (match p.signature with | none => 0 | some s => s.byteSize)

/-- The bytes of `format!("{:x}", n)`: lowercase hexadecimal, no leading
zeroes, `"0"` for zero. -/
def hexBytes (n : Nat) : List Nat :=
  (Nat.toDigits 16 n).map Char.toNat

/-- The bytes `insert_forwarding_data` pushes for one property: a JSON
object `\x7b"name":"<n>","value":"<v>"[,"signature":"<s>"]\x7d` followed by
a `,` (byte 44); `123`/`125` are the brace bytes, `34` the quote. -/
def propertyChunk (p : PropertyT) : List Nat :=
  [123] ++ strBytes "\"name\":\"" ++ p.name.value ++ strBytes "\"," ++
    strBytes "\"value\":\"" ++ p.value.value ++ [34] ++
    (match p.signature with
     | some s => strBytes ",\"signature\":\"" ++ s.value ++ [34]
     | none => []) ++
  [125, 44]

/-- The forwarding string built by `insert_forwarding_data`
(`handshake.rs:23-53`): `server_address || NUL || client_address || NUL ||
hex(uuid)`, and when the property list is nonempty additionally
`NUL || "[" || chunks || "]"` where the trailing `,` of the last chunk is
removed by the source's `pop()` (modelled by `dropLast`). Byte 91 is `[`,
93 is `]`. -/
def buildForwardingData (serverAddress clientAddress : List Nat) (playerUuid : Nat)
    (properties : List PropertyT) : List Nat :=
  let fd := serverAddress ++ [0] ++ clientAddress ++ [0] ++ hexBytes playerUuid
  if properties.isEmpty then fd
  else
    let fd := fd ++ [0, 91]
    let fd := properties.foldl (fun acc p => acc ++ propertyChunk p) fd
    fd.dropLast ++ [93]

/-- `Handshake::insert_forwarding_data` (`handshake.rs:17-57`): replace
`server_address` by `MCString::new(forwarding_data).unwrap()`; the unwrap
of a too-long string is a panic. -/
def insertForwardingData (fuel : Nat) (h : HandshakeT) (clientAddress : MCStringT)
    (playerUuid : Nat) (properties : List PropertyT) : Except RdErr HandshakeT :=
  let fd := buildForwardingData h.serverAddress.value clientAddress.value playerUuid properties
  match mcStringNew fuel fd with
  | .divr => .error .diverged
  | .err => .error .panicked
  | .ok s => .ok { h with serverAddress := s }

/-- The claim's reading of one property object (C4), following the claim's
words: `\x7b"name":"<n>","value":"<v>"\x7d` with `,"signature":"<s>"`
appended inside the object when the property has a signature. -/
def claimPropertyJson (p : PropertyT) : List Nat :=
  [123] ++ strBytes "\"name\":\"" ++ p.name.value ++ strBytes "\"," ++
    strBytes "\"value\":\"" ++ p.value.value ++ [34] ++
    (match p.signature with
     | some s => strBytes ",\"signature\":\"" ++ s.value ++ [34]
     | none => []) ++
  [125]

/-- The claim's reading of the full forwarding string (C4): `S || NUL || A
|| NUL || hex(U)`, then exactly when the property list is nonempty `NUL ||
"[" || objects separated by "," || "]"`. -/
def claimForwardingString (serverAddress clientAddress : List Nat) (playerUuid : Nat)
    (properties : List PropertyT) : List Nat :=
  serverAddress ++ [0] ++ clientAddress ++ [0] ++ hexBytes playerUuid ++
    (if properties = [] then []
     else [0, 91] ++ List.intercalate [44] (properties.map claimPropertyJson) ++ [93])

/-! ## Disconnect and PlayDisconnect (src/src/packets/disconnect.rs) -/

/-- The JSON body `Disconnect::reason` builds (`disconnect.rs:15-19`):
`format!(r#"\x7b\x7b"text": "{reason}", "color": "red"\x7d\x7d"#)`, i.e.
an opening brace (123), `"text": "`, the reason, `", "color": "red"`, a
closing brace (125). Note the space after each colon and comma. -/
def disconnectReasonBody (reason : List Nat) : List Nat :=
  [123] ++ strBytes "\"text\": \"" ++ reason ++ strBytes "\", \"color\": \"red\"" ++ [125]

/-- `Disconnect::reason`: wrap the JSON body into
`MCString::new(..).unwrap()`. -/
def disconnectReason (fuel : Nat) (reason : List Nat) : Except RdErr MCStringT :=
  match mcStringNew fuel (disconnectReasonBody reason) with
  | .divr => .error .diverged
  | .err => .error .panicked
  | .ok s => .ok s

/-- `PlayDisconnect::protocol_id` (`disconnect.rs:50-60`): the version
ranges of the Rust `match`, tried in order (`0..67`, `67..80`, `80..318`,
`318..332`, `332..=340`, otherwise no mapping). -/
def playDisconnectProtocolId (protocol : Int) : Option Nat :=
  if 0 ≤ protocol ∧ protocol < 67 then some 0x40
  else if 67 ≤ protocol ∧ protocol < 80 then some 0x19
  else if 80 ≤ protocol ∧ protocol < 318 then some 0x1A
  else if 318 ≤ protocol ∧ protocol < 332 then some 0x1B
  else if 332 ≤ protocol ∧ protocol ≤ 340 then some 0x1A
  else none

/-- The claim's piecewise version-to-ID map (C8), written as the claim
states it with the explicit catch-all for every other `v` (negative `v`
included); the disjoint interval cases are tested here in the opposite
order from the source's `match`, so agreement with
`playDisconnectProtocolId` is not definitional. -/
def claimPlayDisconnectId (v : Int) : Option Nat :=
  if 332 ≤ v ∧ v ≤ 340 then some 0x1A
  else if 318 ≤ v ∧ v < 332 then some 0x1B
  else if 80 ≤ v ∧ v < 318 then some 0x1A
  else if 67 ≤ v ∧ v < 80 then some 0x19
  else if 0 ≤ v ∧ v < 67 then some 0x40
  else none

/-! ## SHA-256 and HMAC-SHA256

The source delegates to the `hmac`/`sha2` crates; the algorithms are
implemented here directly (FIPS 180-4 / RFC 2104) so that
`VelocityLoginPluginResponse::validate` is fully executable. -/

/-- Truncate to 32 bits. -/
def w32n (n : Nat) : Nat := n % 4294967296

/-- 32-bit rotate right. -/
def rotr32 (k x : Nat) : Nat := w32n ((x >>> k) ||| (x <<< (32 - k)))

/-- The 64 SHA-256 round constants of FIPS 180-4 (the fractional parts of
the cube roots of the first 64 primes), written in decimal. -/
def sha256K : List Nat :=
  [1116352408, 1899447441, 3049323471, 3921009573, 961987163,
   1508970993, 2453635748, 2870763221, 3624381080, 310598401,
   607225278, 1426881987, 1925078388, 2162078206, 2614888103,
   3248222580, 3835390401, 4022224774, 264347078, 604807628,
   770255983, 1249150122, 1555081692, 1996064986, 2554220882,
   2821834349, 2952996808, 3210313671, 3336571891, 3584528711,
   113926993, 338241895, 666307205, 773529912, 1294757372,
   1396182291, 1695183700, 1986661051, 2177026350, 2456956037,
   2730485921, 2820302411, 3259730800, 3345764771, 3516065817,
   3600352804, 4094571909, 275423344, 430227734, 506948616,
   659060556, 883997877, 958139571, 1322822218, 1537002063,
   1747873779, 1955562222, 2024104815, 2227730452, 2361852424,
   2428436474, 2756734187, 3204031479, 3329325298]

/-- The eight SHA-256 initial hash words of FIPS 180-4, in decimal. -/
def sha256H0 : Nat × Nat × Nat × Nat × Nat × Nat × Nat × Nat :=
  (1779033703, 3144134277, 1013904242, 2773480762,
   1359893119, 2600822924, 528734635, 1541459225)

/-- SHA-256 `Ch`. -/
def chF (x y z : Nat) : Nat := (x &&& y) ^^^ ((x ^^^ 0xffffffff) &&& z)

/-- SHA-256 `Maj`. -/
def majF (x y z : Nat) : Nat := (x &&& y) ^^^ (x &&& z) ^^^ (y &&& z)

/-- SHA-256 `Σ0`. -/
def bigSigma0 (x : Nat) : Nat := rotr32 2 x ^^^ rotr32 13 x ^^^ rotr32 22 x

/-- SHA-256 `Σ1`. -/
def bigSigma1 (x : Nat) : Nat := rotr32 6 x ^^^ rotr32 11 x ^^^ rotr32 25 x

/-- SHA-256 `σ0`. -/
def smallSigma0 (x : Nat) : Nat := rotr32 7 x ^^^ rotr32 18 x ^^^ (x >>> 3)

/-- SHA-256 `σ1`. -/
def smallSigma1 (x : Nat) : Nat := rotr32 17 x ^^^ rotr32 19 x ^^^ (x >>> 10)

/-- Big-endian word from bytes. -/
def beWord (bs : List Nat) : Nat := bs.foldl (fun a b => a * 256 + b) 0

/-- The four big-endian bytes of a 32-bit word. -/
def wordBytes4 (w : Nat) : List Nat :=
  [w / 2 ^ 24 % 256, w / 2 ^ 16 % 256, w / 2 ^ 8 % 256, w % 256]

/-- The eight big-endian bytes of a 64-bit quantity. -/
def wordBytes8 (n : Nat) : List Nat :=
  (List.range 8).map (fun i => n / 2 ^ (8 * (7 - i)) % 256)

/-- Extend the sixteen block words into the 64-entry message schedule. -/
def sha256Schedule (ws : List Nat) : List Nat :=
  (List.range 64).foldl
    (fun acc i =>
      if i < 16 then acc ++ [ws.getD i 0]
      else acc ++ [w32n (smallSigma1 (acc.getD (i - 2) 0) + acc.getD (i - 7) 0 +
                         smallSigma0 (acc.getD (i - 15) 0) + acc.getD (i - 16) 0)])
    []

/-- One SHA-256 round. -/
def sha256Round (st : Nat × Nat × Nat × Nat × Nat × Nat × Nat × Nat) (kw : Nat × Nat) :
    Nat × Nat × Nat × Nat × Nat × Nat × Nat × Nat :=
  let (a, b, c, d, e, f, g, h) := st
  let t1 := w32n (h + bigSigma1 e + chF e f g + kw.1 + kw.2)
  let t2 := w32n (bigSigma0 a + majF a b c)
  (w32n (t1 + t2), a, b, c, w32n (d + t1), e, f, g)

/-- Compress one 64-byte block into the state. -/
def sha256Compress (st : Nat × Nat × Nat × Nat × Nat × Nat × Nat × Nat) (block : List Nat) :
    Nat × Nat × Nat × Nat × Nat × Nat × Nat × Nat :=
  let ws := sha256Schedule ((List.range 16).map (fun i => beWord ((block.drop (4 * i)).take 4)))
  let (a, b, c, d, e, f, g, h) := (sha256K.zip ws).foldl sha256Round st
  let (a0, b0, c0, d0, e0, f0, g0, h0) := st
  (w32n (a + a0), w32n (b + b0), w32n (c + c0), w32n (d + d0),
   w32n (e + e0), w32n (f + f0), w32n (g + g0), w32n (h + h0))

/-- SHA-256 padding: `0x80`, zeroes to 56 mod 64, 64-bit big-endian bit
length. -/
def sha256Pad (msg : List Nat) : List Nat :=
  msg ++ [128] ++ List.replicate ((119 - msg.length % 64) % 64) 0 ++ wordBytes8 (8 * msg.length)

/-- SHA-256 of a byte sequence, as its 32-byte digest. -/
def sha256 (msg : List Nat) : List Nat :=
  let padded := sha256Pad msg
  let blocks := (List.range (padded.length / 64)).map (fun i => (padded.drop (64 * i)).take 64)
  let (a, b, c, d, e, f, g, h) := blocks.foldl sha256Compress sha256H0
  List.flatten ([a, b, c, d, e, f, g, h].map wordBytes4)

/-- HMAC-SHA256 (RFC 2104): block size 64, `0x36`/`0x5c` inner and outer
pads. Any key length is accepted (which is why the
`Hmac::new_from_slice(..).map(..).unwrap_or(false)` of the source can
never take its `unwrap_or(false)` branch). -/
def hmacSha256 (key msg : List Nat) : List Nat :=
  let k0 := if key.length > 64 then sha256 key else key
  let k := k0 ++ List.replicate (64 - k0.length) 0
  sha256 ((k.map (· ^^^ 92)) ++ sha256 ((k.map (· ^^^ 54)) ++ msg))

/-! ## VelocityLoginPluginResponse (src/src/packets/velocity_plugin_response.rs) -/

/-- The `VelocityLoginPluginResponse` struct, `raw_remaining_data`
included. -/
structure VRespT where
  connectionId : VarIntT
  version : VarIntT
  signature : List Nat
  rawRemainingData : List Nat
  clientAddress : MCStringT
  playerUuid : Nat
  username : MCStringT
  propertiesLength : VarIntT
  properties : List PropertyT
deriving Repr, DecidableEq

/-- The property-array read loop (`velocity_plugin_response.rs:102-116`):
name, value, a has-signature byte, and the signature exactly when that byte
is `0x01`. -/
def readProperties : Nat → List Nat → Except RdErr (List PropertyT × List Nat)
  | 0, input => .ok ([], input)
  | n + 1, input => do
    let (name, r1) ← mcStringRead input
    let (value, r2) ← mcStringRead r1
    let (b, r3) ← readU8 r2
    if b = 1 then
      let (s, r4) ← mcStringRead r3
      let (props, r5) ← readProperties n r4
      .ok (⟨name, value, some s⟩ :: props, r5)
    else
      let (props, r4) ← readProperties n r3
      .ok (⟨name, value, none⟩ :: props, r4)

/-- `VelocityLoginPluginResponse::read` (`velocity_plugin_response.rs:64-131`):
read the connection id, the has-payload byte (must be `0x01`), the 32-byte
signature, then `expected_length as usize - (connection_id.byte_size() + 1 +
32)` raw bytes — an unchecked `usize` subtraction, which panics in a debug
build when the declared length is below the header size (and in a release
build wraps to a huge byte count; modelled as `panicked`) — and finally
parse the fields out of an in-memory cursor over those raw bytes. -/
def velocityResponseBodyRead (expectedLength : VarIntT) (input : List Nat) :
    Except RdErr (VRespT × List Nat) := do
  let (connectionId, r1) ← varIntRead input
  let (hasPayload, r2) ← readU8 r1
  if hasPayload ≠ 1 then .error .io
  else do
    let (signature, r3) ← readExact 32 r2
    let bytesReadSoFar := connectionId.byteSize + 1 + 32
    if i32ToUsize expectedLength.value < bytesReadSoFar then .error .panicked
    else do
      let remainingBytes := i32ToUsize expectedLength.value - bytesReadSoFar
      let (rawRemainingData, r4) ← readExact remainingBytes r3
      let (version, p1) ← varIntRead rawRemainingData
      let (clientAddress, p2) ← mcStringRead p1
      let (playerUuid, p3) ← readU128 p2
      let (username, p4) ← mcStringRead p3
      let (propertiesLength, p5) ← varIntRead p4
      let (properties, _) ← readProperties propertiesLength.value.toNat p5
      .ok (⟨connectionId, version, signature, rawRemainingData, clientAddress,
            playerUuid, username, propertiesLength, properties⟩, r4)

/-- `VelocityLoginPluginResponse::byte_size`
(`velocity_plugin_response.rs:51-61`). -/
def vRespByteSize (v : VRespT) : Nat :=
  v.connectionId.byteSize + 1 + 32 + v.version.byteSize + v.clientAddress.byteSize +
    16 + v.username.byteSize + v.propertiesLength.byteSize +
    v.properties.foldl (fun acc e => acc + propertyByteSize e) 0

/-- `VelocityLoginPluginResponse::validate`
(`velocity_plugin_response.rs:37-46`): HMAC-SHA256 keyed by the secret's
UTF-8 bytes over `raw_remaining_data`, compared against the stored
signature. `Hmac::<Sha256>::new_from_slice` accepts every key length, so
the `unwrap_or(false)` of the source never fires. -/
def vRespValidate (v : VRespT) (secret : List Nat) : Bool :=
  hmacSha256 secret v.rawRemainingData == v.signature

/-! ## Connection state machine (src/src/connection.rs) -/

/-- One framed read of a `VelocityLoginPluginResponse`
(`read_packet::<VelocityLoginPluginResponse>()`, managed ID `0x02`). -/
def readVResp (fuel : Nat) (input : List Nat) : ReadPacketRes VRespT :=
  readPacketGeneral fuel velocityResponseBodyRead vRespByteSize (some 0x02) input

/-- Result of `buffer_until_response`. -/
inductive BufRes where
  | ok (buffer : List GenericPacketT) (resp : VRespT) (rest : List Nat)
  | ioErr
  | panicked
  | diverged
deriving Repr, DecidableEq

/-- `Connection::buffer_until_response` (`connection.rs:215-261`): read
packets as plugin responses; push the carried `GenericPacket` of every
`InvalidPacketId` onto the buffer and retry; fail on io errors and on a
size mismatch with `expected < got`; otherwise log and retry. -/
def bufferLoop (fuel : Nat) (buf : List GenericPacketT) (input : List Nat) : BufRes :=
  match fuel with
  | 0 => .diverged
  | fuel + 1 =>
    match readVResp fuel input with
    | .ok resp rest => .ok buf resp rest
    | .ioErr => .ioErr
    | .invalidPacketId _ _ packet rest => bufferLoop fuel (buf ++ [packet]) rest
    | .sizeMismatch expected got rest =>
        if expected < got then .ioErr else bufferLoop fuel buf rest
    | .panicked => .panicked
    | .diverged => .diverged

/-- Reference description of the await-response loop: the sequence of
stray packets the framer hands back, in the order they appear on the
stream, ending at the first successfully framed plugin response. -/
def strayPackets (fuel : Nat) (input : List Nat) :
    Option (List GenericPacketT × VRespT × List Nat) :=
  match fuel with
  | 0 => none
  | fuel + 1 =>
    match readVResp fuel input with
    | .ok resp rest => some ([], resp, rest)
    | .invalidPacketId _ _ packet rest =>
        match strayPackets fuel rest with
        | some (l, resp, rr) => some (packet :: l, resp, rr)
        | none => none
    | .sizeMismatch expected got rest =>
        if expected < got then none else strayPackets fuel rest
    | _ => none

/-- `VelocityLoginPluginRequest::new` plus its `write_packet`: the wire
bytes of the plugin request for a connection id
(`velocity_plugin_request.rs`, `packet_write.rs`). -/
def pluginRequestWire (fuel : Nat) (connectionId : Int) : Except RdErr (List Nat) := do
  let cid ← varIntNewUnwrap fuel connectionId
  let channelLen ← varIntNewUnwrap fuel (usizeToI32 (strBytes "velocity:player_info").length)
  let channel ← (match mcStringNew fuel (strBytes "velocity:player_info") with
                 | .ok s => Except.ok s
                 | .err => Except.error RdErr.panicked
                 | .divr => Except.error RdErr.diverged)
  let byteSize := cid.byteSize + (channelLen.byteSize + (strBytes "velocity:player_info").length) + 1
  let cidBytes ← (match varIntWrite fuel cid with
                  | some b => Except.ok b | none => Except.error RdErr.diverged)
  let chBytes ← (match mcStringWrite fuel channel with
                 | some b => Except.ok b | none => Except.error RdErr.diverged)
  writePacketManaged fuel 0x04 byteSize (some (cidBytes ++ chBytes ++ [1]))

/-- `Disconnect::reason` plus its `write_packet` (managed ID `0x00`). -/
def disconnectWire (fuel : Nat) (reason : List Nat) : Except RdErr (List Nat) := do
  let s ← disconnectReason fuel reason
  writePacketManaged fuel 0x00 s.byteSize (mcStringWrite fuel s)

/-- `write_packet` of a `Handshake` (managed ID `0x00`). -/
def handshakeWire (fuel : Nat) (h : HandshakeT) : Except RdErr (List Nat) :=
  writePacketManaged fuel 0x00 (handshakeByteSize h) (handshakeBodyWrite fuel h)

/-- `write_packet` of a `LoginStart` (managed ID `0x00`). -/
def loginStartWire (fuel : Nat) (l : LoginStartT) : Except RdErr (List Nat) :=
  writePacketManaged fuel 0x00 (loginStartByteSize l) (loginStartBodyWrite fuel l)

/-- The `for packet in &buffer` forwarding loop of `Connection::handle`
(`connection.rs:143-149`): write each buffered packet in turn, keeping the
writes already made when one fails. -/
def writeBufferedAux (fuel : Nat) : List GenericPacketT → List (List Nat) →
    List (List Nat) × Option RdErr
  | [], acc => (acc, none)
  | p :: rest, acc =>
    match writePacketManual fuel p with
    | .ok w => writeBufferedAux fuel rest (acc ++ [w])
    | .error e => (acc, some e)

/-- The reason string of the HMAC-failure Disconnect
(`connection.rs:107-109`). -/
def hmacFailReason : List Nat :=
  strBytes "Failed to verify your identity, please rejoin the server"

/-- How a `Connection::handle` run ends. -/
inductive HandleOutcome where
  | handshakeFail
  | statusSplicing
  | transferClosed
  | loginStartFail
  | writeFail
  | bufferFail
  | connectionIdMismatch
  | hmacFail
  | splicing (protocol : Int)
  | panicked
  | diverged
deriving Repr, DecidableEq

/-- The observable effect of a `Connection::handle` run: the packet writes
made to the client and to the backend (each entry one `write_packet`
buffer, in program order) and how the run ended. -/
structure HandleResult where
  clientWrites : List (List Nat)
  backendWrites : List (List Nat)
  outcome : HandleOutcome
deriving Repr, DecidableEq

/-- The `NextState::Login` branch of `Connection::handle`
(`connection.rs:61-159`): read the LoginStart, send the plugin request to
the client, run the await-response loop, check the connection id, HMAC
validate (sending a Disconnect to the client and terminating on failure),
rewrite the handshake and the LoginStart username, then write the
rewritten handshake, the rewritten LoginStart and every buffered packet to
the backend and enter splicing. -/
def loginPhase (fuel : Nat) (connectionId : Int) (secret : List Nat)
    (handshake : HandshakeT) (r1 : List Nat) : HandleResult :=
  let protocol := handshake.protocolVersion.value
  match readPacketGeneral fuel loginStartBodyRead loginStartByteSize (some 0x00) r1 with
  | .panicked => ⟨[], [], .panicked⟩
  | .diverged => ⟨[], [], .diverged⟩
  | .ioErr => ⟨[], [], .loginStartFail⟩
  | .invalidPacketId _ _ _ _ => ⟨[], [], .loginStartFail⟩
  | .sizeMismatch _ _ _ => ⟨[], [], .loginStartFail⟩
  | .ok ls r2 =>
    match pluginRequestWire fuel connectionId with
    | .error .panicked => ⟨[], [], .panicked⟩
    | .error .diverged => ⟨[], [], .diverged⟩
    | .error .io => ⟨[], [], .writeFail⟩
    | .ok reqBytes =>
      match bufferLoop fuel [] r2 with
      | .ioErr => ⟨[reqBytes], [], .bufferFail⟩
      | .panicked => ⟨[reqBytes], [], .panicked⟩
      | .diverged => ⟨[reqBytes], [], .diverged⟩
      | .ok buffer resp _rest =>
        if resp.connectionId.value ≠ connectionId then
          ⟨[reqBytes], [], .connectionIdMismatch⟩
        else if !vRespValidate resp secret then
          match disconnectWire fuel hmacFailReason with
          | .ok dc => ⟨[reqBytes, dc], [], .hmacFail⟩
          | .error .io => ⟨[reqBytes], [], .hmacFail⟩
          | .error .panicked => ⟨[reqBytes], [], .panicked⟩
          | .error .diverged => ⟨[reqBytes], [], .diverged⟩
        else
          match insertForwardingData fuel handshake resp.clientAddress resp.playerUuid
              resp.properties with
          | .error .diverged => ⟨[reqBytes], [], .diverged⟩
          | .error _ => ⟨[reqBytes], [], .panicked⟩
          | .ok handshake' =>
            let loginStart' : LoginStartT := { ls with username := resp.username }
            match handshakeWire fuel handshake' with
            | .error .io => ⟨[reqBytes], [], .writeFail⟩
            | .error .panicked => ⟨[reqBytes], [], .panicked⟩
            | .error .diverged => ⟨[reqBytes], [], .diverged⟩
            | .ok hsBytes =>
              match loginStartWire fuel loginStart' with
              | .error .io => ⟨[reqBytes], [hsBytes], .writeFail⟩
              | .error .panicked => ⟨[reqBytes], [hsBytes], .panicked⟩
              | .error .diverged => ⟨[reqBytes], [hsBytes], .diverged⟩
              | .ok lsBytes =>
                match writeBufferedAux fuel buffer [] with
                | (ws, none) =>
                    ⟨[reqBytes], hsBytes :: lsBytes :: ws, .splicing protocol⟩
                | (ws, some .io) =>
                    ⟨[reqBytes], hsBytes :: lsBytes :: ws, .writeFail⟩
                | (ws, some .panicked) =>
                    ⟨[reqBytes], hsBytes :: lsBytes :: ws, .panicked⟩
                | (ws, some .diverged) =>
                    ⟨[reqBytes], hsBytes :: lsBytes :: ws, .diverged⟩

/-- `Connection::handle` (`connection.rs:33-167`): read the client's
handshake and branch on `next_state` (1 status, 2 login, 3 transfer; the
`NextState` decode itself is not in the snapshot — per the spec, §3,
`next_state` ranges over `{1, 2, 3}`, and every other value is treated
here as a failed handshake read). -/
def connectionHandle (fuel : Nat) (connectionId : Int) (secret : List Nat)
    (input : List Nat) : HandleResult :=
  match readPacketGeneral fuel handshakeBodyRead handshakeByteSize (some 0x00) input with
  | .panicked => ⟨[], [], .panicked⟩
  | .diverged => ⟨[], [], .diverged⟩
  | .ioErr => ⟨[], [], .handshakeFail⟩
  | .invalidPacketId _ _ _ _ => ⟨[], [], .handshakeFail⟩
  | .sizeMismatch _ _ _ => ⟨[], [], .handshakeFail⟩
  | .ok handshake r1 =>
    if handshake.nextState.value = 1 then
      match handshakeWire fuel handshake with
      | .ok b => ⟨[], [b], .statusSplicing⟩
      | .error .io => ⟨[], [], .writeFail⟩
      | .error .panicked => ⟨[], [], .panicked⟩
      | .error .diverged => ⟨[], [], .diverged⟩
    else if handshake.nextState.value = 2 then
      loginPhase fuel connectionId secret handshake r1
    else if handshake.nextState.value = 3 then
      ⟨[], [], .transferClosed⟩
    else
      ⟨[], [], .handshakeFail⟩

/-! ## Concrete instances used by the claim theorems -/

/-- A handshake whose server address is 32767 `a` bytes — itself within
every MCString bound. -/
def bigHandshake : HandshakeT :=
  ⟨⟨765, 2⟩, ⟨⟨32767, 3⟩, List.replicate 32767 97⟩, 25565, ⟨2, 1⟩⟩

/-- An empty client address. -/
def emptyAddress : MCStringT := ⟨⟨0, 1⟩, []⟩

/-- Concrete C4 handshake: server address `srv`. -/
def c4H : HandshakeT := ⟨⟨765, 2⟩, ⟨⟨3, 1⟩, strBytes "srv"⟩, 25565, ⟨2, 1⟩⟩

/-- Concrete C4 client address `cl`. -/
def c4A : MCStringT := ⟨⟨2, 1⟩, strBytes "cl"⟩

/-- Concrete C4 properties: one with a signature, one without. -/
def c4P : List PropertyT :=
  [⟨⟨⟨1, 1⟩, strBytes "n"⟩, ⟨⟨1, 1⟩, strBytes "v"⟩, some ⟨⟨1, 1⟩, strBytes "s"⟩⟩,
   ⟨⟨⟨1, 1⟩, strBytes "m"⟩, ⟨⟨1, 1⟩, strBytes "w"⟩, none⟩]

/-- The handshake C4 should produce on the concrete input: address
`srv NUL cl NUL ff NUL [objects]`. -/
def c4Expected : HandshakeT :=
  ⟨⟨765, 2⟩, ⟨⟨77, 1⟩, strBytes "srv" ++ [0] ++ strBytes "cl" ++ [0] ++ strBytes "ff" ++ [0] ++
    strBytes "[\x7b\"name\":\"n\",\"value\":\"v\",\"signature\":\"s\"\x7d,\x7b\"name\":\"m\",\"value\":\"w\"\x7d]"⟩,
    25565, ⟨2, 1⟩⟩

/-- Concrete C3 raw payload: version 1, client address `10.0.0.1`, a UUID
of sixteen `0x09` bytes, username `Alice`, no properties (33 bytes). -/
def c3Raw : List Nat :=
  [1] ++ ([8] ++ strBytes "10.0.0.1") ++ List.replicate 16 9 ++ ([5] ++ strBytes "Alice") ++ [0]

/-- Concrete C3 packet body: connection id 42, has-payload 1, a 32-byte
signature of `0x07` bytes, then the raw payload; declared body length
67. -/
def c3Input : List Nat := [42, 1] ++ List.replicate 32 7 ++ c3Raw

/-- The response parsed from `c3Input`. -/
def c3Resp : VRespT :=
  ⟨⟨42, 1⟩, ⟨1, 1⟩, List.replicate 32 7, c3Raw, ⟨⟨8, 1⟩, strBytes "10.0.0.1"⟩,
    12009965891327239886942633203474172169, ⟨⟨5, 1⟩, strBytes "Alice"⟩, ⟨0, 1⟩, []⟩

/-- The Disconnect body bytes the claim states:
`\x7b"text":"Failed to verify your identity, please rejoin the
server","color":"red"\x7d` with no whitespace. -/
def claimedC6Body : List Nat :=
  strBytes "\x7b\"text\":\"Failed to verify your identity, please rejoin the server\",\"color\":\"red\"\x7d"

/-- The Disconnect body bytes the code actually produces: the same JSON
object with a space after each colon and comma of the wrapper. -/
def amendedC6Body : List Nat :=
  strBytes "\x7b\"text\": \"Failed to verify your identity, please rejoin the server\", \"color\": \"red\"\x7d"

/-- Concrete C2 raw payload: version 1, client address `10.0.0.1`, uuid
bytes 0..15, username `Alice`, no properties. -/
def c2Raw : List Nat :=
  [1] ++ ([8] ++ strBytes "10.0.0.1") ++ List.range 16 ++ ([5] ++ strBytes "Alice") ++ [0]

/-- The correct HMAC signature of the C2 payload under the secret
`secret`. -/
def c2Sig : List Nat := hmacSha256 (strBytes "secret") c2Raw

/-- Concrete C2 client stream: Login handshake for `p.ex`, LoginStart for
`Guest`, one stray frame (declared length 1, ID `0x05`; the framer
consumes its trailing two bytes as well), then a validly signed plugin
response with connection id 42. -/
def c2Input : List Nat :=
  ([11, 0, 253, 5, 4] ++ strBytes "p.ex" ++ [99, 221, 2]) ++
  ([7, 0, 5] ++ strBytes "Guest") ++
  [1, 5, 0xAA, 0xBB] ++
  ([68, 2] ++ [42, 1] ++ c2Sig ++ c2Raw)

/-- Concrete C6 raw payload (same fields as the C3 payload). -/
def c6Raw : List Nat :=
  [1] ++ ([8] ++ strBytes "10.0.0.1") ++ List.replicate 16 9 ++ ([5] ++ strBytes "Alice") ++ [0]

/-- Concrete C6 client stream: a Login handshake for `p.ex`, a LoginStart
for `Guest`, then a plugin response whose 32 signature bytes are all zero
— which cannot match the HMAC. -/
def c6Input : List Nat :=
  ([11, 0, 253, 5, 4] ++ strBytes "p.ex" ++ [99, 221, 2]) ++
  ([7, 0, 5] ++ strBytes "Guest") ++
  ([68, 2] ++ [42, 1] ++ List.replicate 32 0 ++ c6Raw)

/-- `Except.ok a >>= f` reduces. -/
theorem exceptOkBind (a : α) (f : α → Except RdErr β) : (Except.ok a >>= f) = f a := rfl

/-- `Except.error e >>= f` reduces. -/
theorem exceptErrorBind (e : RdErr) (f : α → Except RdErr β) :
    ((Except.error e : Except RdErr α) >>= f) = Except.error e := rfl

/-! ## Claim C8: PlayDisconnect protocol-version mapping -/

/-- C8: the PlayDisconnect version-to-packet-ID function maps every
protocol version `v` by the piecewise function 0 ≤ v < 67 ↦ 0x40,
67 ≤ v < 80 ↦ 0x19, 80 ≤ v < 318 ↦ 0x1A, 318 ≤ v < 332 ↦ 0x1B,
332 ≤ v ≤ 340 ↦ 0x1A, and every other `v` (v > 340 and negative `v`
included) to no mapping. -/
theorem c8_play_disconnect_protocol_id (v : Int) :
    playDisconnectProtocolId v = claimPlayDisconnectId v := by
  unfold playDisconnectProtocolId claimPlayDisconnectId
  split_ifs <;> first | rfl | omega

/-- Witness for C8 at the spec's sample points (the `v : Int` binder is
not a hypothesis, but the table makes the mapping concrete). -/
theorem c8_play_disconnect_protocol_id_witness :
    playDisconnectProtocolId 0 = claimPlayDisconnectId 0 ∧
    playDisconnectProtocolId 340 = some 0x1A ∧
    playDisconnectProtocolId 341 = none ∧
    playDisconnectProtocolId (-1) = none :=
  ⟨c8_play_disconnect_protocol_id 0, by decide, by decide, by decide⟩

/-! ## Claim C5: VarInt construction and round-trip -/

/-- The state `-1` is a fixed point of the arithmetic-shift step both
loops of the VarInt encoder use. -/
theorem fdiv_neg_one_128 : Int.fdiv (-1) 128 = -1 := by decide

/-- The `bytes_needed` loop never finishes from a negative state. -/
theorem bytesNeededLoop_neg_one (fuel count : Nat) :
    bytesNeededLoop fuel (-1) count = none := by
  induction fuel generalizing count with
  | zero => rfl
  | succ n ih =>
      unfold bytesNeededLoop
      rw [if_neg (by decide), fdiv_neg_one_128]
      exact ih (count + 1)

/-- The encode loop never finishes from a negative state. -/
theorem varIntWriteLoop_neg_one (fuel : Nat) (buf : List Nat) :
    varIntWriteLoop fuel (-1) buf = none := by
  induction fuel generalizing buf with
  | zero => rfl
  | succ n ih =>
      unfold varIntWriteLoop
      simp only [fdiv_neg_one_128]
      rw [if_neg (by decide)]
      exact ih _

/-- C5 fails on the code: the value `-1` is decodable from the wire (five
bytes `ff ff ff ff 0f`), but `VarInt::try_from(-1)` never terminates (its
`temp >>= 7` arithmetic shift keeps `temp` at `-1`), and `VarInt::write`
on a VarInt holding `-1` likewise loops forever, for every fuel — so no
VarInt holding a negative value can be constructed and encoding a decoded
negative VarInt never terminates, contradicting the claimed round-trip
for every `i32` value. -/
theorem c5_varint_negative_value_diverges :
    varIntRead [255, 255, 255, 255, 15] = .ok (⟨-1, 5⟩, []) ∧
    ∀ fuel : Nat, varIntTryFrom fuel (-1) = .divr ∧ varIntWrite fuel ⟨-1, 5⟩ = none := by
  refine ⟨rfl, fun fuel => ⟨?_, ?_⟩⟩
  · unfold varIntTryFrom
    rw [if_neg (by decide), bytesNeededLoop_neg_one]
  · exact varIntWriteLoop_neg_one fuel []

/-! ## Claim C7: MCString maximum length on read -/

/-- C7 fails on the code: `MCString::read` enforces no maximum at all (the
source carries `TODO: Enforce max length of MCString`). A stream declaring
17 bytes — beyond the username bound of 16 — is read into a constructed
string without error, and even direct construction via `MCString::new`
accepts it, since `new` only checks the default bound 32767. -/
theorem c7_mcstring_read_ignores_max :
    mcStringRead ([17] ++ List.replicate 17 97) =
      .ok (⟨⟨17, 1⟩, List.replicate 17 97⟩, []) ∧
    mcStringNew 10 (List.replicate 17 97) = .ok ⟨⟨17, 1⟩, List.replicate 17 97⟩ :=
  ⟨rfl, by decide⟩

/-! ## Claim C1: the framer's InvalidPacketId path -/

/-- C1 fails on the code: reading a Managed packet (expected ID `0x02`)
from the stream `02 05 aa bb cc` — declared payload length 2, mismatched
ID byte `0x05`, remaining payload byte `aa`, following bytes `bb cc` — the
source allocates a `payload_length`-byte zero buffer, pushes the ID byte,
then `read_exact`s into the whole buffer, overwriting every byte of it
(the pushed ID byte included) with `payload_length + 1` fresh stream
bytes. The returned GenericPacket is therefore `[aa, bb]` and the whole
5-byte stream is consumed, not the claimed GenericPacket `[05, aa]` with
`bb cc` left unread. -/
theorem c1_invalid_packet_id_overreads :
    readPacketGeneral 10 velocityResponseBodyRead vRespByteSize (some 0x02)
      [0x02, 0x05, 0xAA, 0xBB, 0xCC] =
      .invalidPacketId 0x02 0x05 ⟨[0xAA, 0xBB]⟩ [] := by
  decide

/-! ## Claim C4: the forwarding string format -/

/-- With no properties the built forwarding string is
`S || NUL || A || NUL || hex(U)`. -/
theorem buildForwardingData_no_properties (S A : List Nat) (U : Nat) :
    buildForwardingData S A U [] = S ++ [0] ++ A ++ [0] ++ hexBytes U := by
  simp [buildForwardingData]

/-- Each pushed property chunk is the claim's JSON object followed by the
separator byte `,`. -/
theorem propertyChunk_eq_json_comma (p : PropertyT) :
    propertyChunk p = claimPropertyJson p ++ [44] := by
  cases hs : p.signature <;>
    simp [propertyChunk, claimPropertyJson, hs, List.append_assoc]

/-- A property chunk is never empty. -/
theorem propertyChunk_ne_nil (p : PropertyT) : propertyChunk p ≠ [] := by
  rw [propertyChunk_eq_json_comma]
  simp

/-- The source's push loop is an append of all chunks. -/
theorem foldl_propertyChunk (props : List PropertyT) (base : List Nat) :
    props.foldl (fun acc p => acc ++ propertyChunk p) base =
      base ++ (props.map propertyChunk).flatten := by
  induction props generalizing base with
  | nil => simp
  | cons p rest ih => simp [ih, List.append_assoc]

/-- `List.intercalate` on a single chunk. -/
theorem intercalate_comma_single (x : List Nat) : List.intercalate [44] [x] = x := by
  simp [List.intercalate]

/-- `List.intercalate` peels one chunk. -/
theorem intercalate_comma_cons2 (x y : List Nat) (l : List (List Nat)) :
    List.intercalate [44] (x :: y :: l) = x ++ [44] ++ List.intercalate [44] (y :: l) := by
  simp [List.intercalate]

/-- Dropping the final `,` of the concatenated chunks yields the
comma-separated object list of the claim. -/
theorem flatten_chunks_dropLast (props : List PropertyT) (hne : props ≠ []) :
    ((props.map propertyChunk).flatten).dropLast =
      List.intercalate [44] (props.map claimPropertyJson) := by
  induction props with
  | nil => exact absurd rfl hne
  | cons p rest ih =>
    cases rest with
    | nil =>
      simp only [List.map_cons, List.map_nil, List.flatten_cons, List.flatten_nil,
        List.append_nil, propertyChunk_eq_json_comma, intercalate_comma_single]
      exact List.dropLast_concat
    | cons q rest' =>
      have hflat : propertyChunk q ++ (List.map propertyChunk rest').flatten ≠ [] := by
        intro hcontra
        exact propertyChunk_ne_nil q (List.append_eq_nil.mp hcontra).1
      simp only [List.map_cons, List.flatten_cons] at ih ⊢
      rw [List.dropLast_append_of_ne_nil _ hflat, ih (by simp)]
      conv_rhs => rw [intercalate_comma_cons2]
      rw [propertyChunk_eq_json_comma]

/-- The source's forwarding-string builder produces exactly the claim's
format: `S || NUL || A || NUL || hex(U)`, and exactly when the property
list is nonempty additionally `NUL || "[" || objects separated by "," ||
"]"`. -/
theorem buildForwardingData_eq_claim (S A : List Nat) (U : Nat) (P : List PropertyT) :
    buildForwardingData S A U P = claimForwardingString S A U P := by
  cases P with
  | nil =>
    rw [buildForwardingData_no_properties]
    simp [claimForwardingString]
  | cons p rest =>
    have hflat : ((p :: rest).map propertyChunk).flatten ≠ [] := by
      simp only [List.map_cons, List.flatten_cons]
      intro hcontra
      exact propertyChunk_ne_nil p (List.append_eq_nil.mp hcontra).1
    unfold buildForwardingData claimForwardingString
    rw [if_neg (by simp : ¬ (p :: rest).isEmpty = true), if_neg (by simp)]
    simp only [foldl_propertyChunk]
    rw [List.dropLast_append_of_ne_nil _ hflat, flatten_chunks_dropLast _ (by simp)]
    simp [List.append_assoc]

/-- `MCString::new` keeps the value bytes unchanged. -/
theorem mcStringNew_value (fuel : Nat) (v : List Nat) (s : MCStringT)
    (h : mcStringNew fuel v = .ok s) : s.value = v := by
  unfold mcStringNew at h
  split at h
  · exact absurd h (by simp)
  · exact absurd h (by simp)
  · split at h
    · exact absurd h (by simp)
    · cases h
      rfl

/-- C4: on success, `insert_forwarding_data` replaces the handshake's
`server_address` with exactly `S || NUL || A || NUL || lowercase-hex(U)`
(no separators, no leading zeroes) and, exactly when the property list is
nonempty, additionally `NUL || "[" || the property JSON objects (with the
signature member present inside an object exactly when the property has a
signature) separated by "," || "]"`. -/
theorem c4_insert_forwarding_data_format (fuel : Nat) (h h' : HandshakeT) (A : MCStringT)
    (U : Nat) (P : List PropertyT)
    (hok : insertForwardingData fuel h A U P = .ok h') :
    h'.serverAddress.value = claimForwardingString h.serverAddress.value A.value U P := by
  simp only [insertForwardingData] at hok
  split at hok
  · exact absurd hok (by simp)
  · exact absurd hok (by simp)
  · rename_i s heq
    cases hok
    show s.value = _
    rw [mcStringNew_value fuel _ s heq, buildForwardingData_eq_claim]

/-- Witness for C4: the rewrite succeeds on the concrete input, and the
main theorem applies there. -/
theorem c4_insert_forwarding_data_format_witness :
    insertForwardingData 10 c4H c4A 255 c4P = .ok c4Expected ∧
    c4Expected.serverAddress.value =
      claimForwardingString c4H.serverAddress.value c4A.value 255 c4P :=
  ⟨rfl, c4_insert_forwarding_data_format 10 c4H c4Expected c4A 255 c4P rfl⟩

/-! ## Claim C3: HMAC validation runs over the verbatim wire bytes -/

/-- Inversion of an `Except` bind that returned `ok`. -/
theorem bind_ok_inv2 {A B C : Type} (e : Except RdErr (A × B))
    (f : A × B → Except RdErr C) (b : C) (h : (e >>= f) = .ok b) :
    ∃ a₁ a₂, e = .ok (a₁, a₂) ∧ f (a₁, a₂) = .ok b := by
  cases e with
  | error err => exact absurd h (by simp [exceptErrorBind])
  | ok a => exact ⟨a.1, a.2, rfl, h⟩

/-- Inversion of a successful `readExact`. -/
theorem readExact_inv (n : Nat) (input out rest : List Nat)
    (h : readExact n input = .ok (out, rest)) :
    out = input.take n ∧ rest = input.drop n ∧ n ≤ input.length := by
  unfold readExact at h
  split at h
  · cases h
    exact ⟨rfl, rfl, by assumption⟩
  · exact absurd h (by simp)

/-- Inversion of a successful `readU8`. -/
theorem readU8_inv (input rest : List Nat) (b : Nat)
    (h : readU8 input = .ok (b, rest)) : input = b :: rest := by
  cases input with
  | nil => exact absurd h (by simp [readU8])
  | cons x tl =>
    unfold readU8 at h
    cases h
    rfl

/-- A successful `VarInt::read` consumes exactly `bytes_needed` bytes. -/
theorem varIntReadLoop_drop (input : List Nat) : ∀ (k acc : Nat) (v : VarIntT)
    (rest : List Nat), varIntReadLoop input k acc = .ok (v, rest) →
    ∃ n, 1 ≤ n ∧ rest = input.drop n ∧ v.bytesNeeded = k + n := by
  induction input with
  | nil =>
    intro k acc v rest h
    exact absurd h (by simp [varIntReadLoop])
  | cons b tl ih =>
    intro k acc v rest h
    simp only [varIntReadLoop] at h
    split at h
    · exact absurd h (by simp)
    · split at h
      · cases h
        exact ⟨1, le_refl 1, rfl, rfl⟩
      · obtain ⟨n, hn1, hrest, hbn⟩ := ih (k + 1) _ v rest h
        exact ⟨n + 1, by omega, by simpa using hrest, by omega⟩

/-- A successful `VarInt::read` leaves `input.drop bytes_needed`. -/
theorem varIntRead_drop (input : List Nat) (v : VarIntT) (rest : List Nat)
    (h : varIntRead input = .ok (v, rest)) : rest = input.drop v.byteSize := by
  obtain ⟨n, _, hrest, hbn⟩ := varIntReadLoop_drop input 0 0 v rest h
  rw [hrest, VarIntT.byteSize, hbn, Nat.zero_add]

/-- C3: `validate(secret)` returns true iff HMAC-SHA256 keyed by the
secret's bytes, computed over the verbatim wire byte range of
`raw_payload` — the bytes of the input stream after the connection id, the
has-payload byte and the 32-byte signature, up to the declared packet end,
not a re-serialization of the parsed fields — equals the stored 32-byte
signature. -/
theorem c3_validate_exact_wire_slice (expectedLength : VarIntT) (input rest : List Nat)
    (resp : VRespT) (secret : List Nat)
    (h : velocityResponseBodyRead expectedLength input = .ok (resp, rest)) :
    resp.rawRemainingData =
      (input.drop (resp.connectionId.byteSize + 1 + 32)).take
        (i32ToUsize expectedLength.value - (resp.connectionId.byteSize + 1 + 32)) ∧
    (vRespValidate resp secret = true ↔
      hmacSha256 secret
        ((input.drop (resp.connectionId.byteSize + 1 + 32)).take
          (i32ToUsize expectedLength.value - (resp.connectionId.byteSize + 1 + 32))) =
        resp.signature) := by
  unfold velocityResponseBodyRead at h
  obtain ⟨cid, r1, h1, h⟩ := bind_ok_inv2 _ _ _ h
  obtain ⟨hp, r2, h2, h⟩ := bind_ok_inv2 _ _ _ h
  simp only [] at h
  by_cases hhp : hp = 1
  case neg =>
    rw [if_pos (by simpa using hhp)] at h
    exact absurd h (by simp)
  subst hhp
  rw [if_neg (by simp)] at h
  obtain ⟨sig, r3, hsig, h⟩ := bind_ok_inv2 _ _ _ h
  simp only [] at h
  by_cases hlt : i32ToUsize expectedLength.value < cid.byteSize + 1 + 32
  case pos =>
    rw [if_pos hlt] at h
    exact absurd h (by simp)
  rw [if_neg hlt] at h
  obtain ⟨raw, r4, hraw, h⟩ := bind_ok_inv2 _ _ _ h
  obtain ⟨version, p1, hv, h⟩ := bind_ok_inv2 _ _ _ h
  obtain ⟨caddr, p2, hca, h⟩ := bind_ok_inv2 _ _ _ h
  obtain ⟨uuid, p3, hu, h⟩ := bind_ok_inv2 _ _ _ h
  obtain ⟨uname, p4, hun, h⟩ := bind_ok_inv2 _ _ _ h
  obtain ⟨plen, p5, hpl, h⟩ := bind_ok_inv2 _ _ _ h
  obtain ⟨props, p6, hpr, h⟩ := bind_ok_inv2 _ _ _ h
  cases h
  have hr1 : r1 = input.drop cid.byteSize := varIntRead_drop input cid r1 h1
  have hr2 : r1 = 1 :: r2 := readU8_inv r1 r2 1 h2
  obtain ⟨hsigv, hr3, _⟩ := readExact_inv 32 r2 sig r3 hsig
  obtain ⟨hrawv, _, _⟩ :=
    readExact_inv (i32ToUsize expectedLength.value - (cid.byteSize + 1 + 32)) r3 raw r4 hraw
  have hslice : raw =
      (input.drop (cid.byteSize + 1 + 32)).take
        (i32ToUsize expectedLength.value - (cid.byteSize + 1 + 32)) := by
    rw [hrawv, hr3]
    have : r2 = r1.drop 1 := by rw [hr2]; rfl
    rw [this, hr1, List.drop_drop, List.drop_drop]
  refine ⟨hslice, ?_⟩
  rw [vRespValidate]
  rw [show (⟨cid, version, sig, raw, caddr, uuid, uname, plen, props⟩ : VRespT).rawRemainingData
      = raw from rfl]
  rw [← hslice]
  exact beq_iff_eq

/-- Witness for C3 at the concrete response packet, with the secret
`mysecret`. -/
theorem c3_validate_exact_wire_slice_witness :
    velocityResponseBodyRead ⟨67, 1⟩ c3Input = .ok (c3Resp, []) ∧
    (c3Resp.rawRemainingData =
      (c3Input.drop (c3Resp.connectionId.byteSize + 1 + 32)).take
        (i32ToUsize (67 : Int) - (c3Resp.connectionId.byteSize + 1 + 32)) ∧
    (vRespValidate c3Resp (strBytes "mysecret") = true ↔
      hmacSha256 (strBytes "mysecret")
        ((c3Input.drop (c3Resp.connectionId.byteSize + 1 + 32)).take
          (i32ToUsize (67 : Int) - (c3Resp.connectionId.byteSize + 1 + 32))) =
        c3Resp.signature)) :=
  ⟨rfl, c3_validate_exact_wire_slice ⟨67, 1⟩ c3Input [] c3Resp (strBytes "mysecret") rfl⟩

/-! ## Claim C9: insert_forwarding_data is not total -/

/-- `MCString::new` rejects any value of byte length 32770 (the length
VarInt is constructible, but the 32767 bound check fails). -/
theorem mcStringNew_err_of_len_32770 (fuel : Nat) (v : List Nat) (h1 : v.length = 32770)
    (h2 : varIntTryFrom fuel 32770 = .ok ⟨32770, 3⟩) : mcStringNew fuel v = .err := by
  unfold mcStringNew
  rw [h1]
  rw [(by decide : usizeToI32 32770 = (32770 : Int))]
  rw [h2]
  simp only []
  rw [if_pos (by decide : (32770 : Int) > 32767)]

/-- When the composed forwarding string fails `MCString::new`, the
`unwrap` in `insert_forwarding_data` panics. -/
theorem insertForwardingData_panics_of_err (fuel : Nat) (h : HandshakeT) (A : MCStringT)
    (U : Nat) (P : List PropertyT)
    (herr : mcStringNew fuel (buildForwardingData h.serverAddress.value A.value U P) = .err) :
    insertForwardingData fuel h A U P = .error .panicked := by
  unfold insertForwardingData
  simp only [herr]

/-- C9: there are valid inputs — a 32767-byte original server address, an
empty client address, UUID 0 and no properties, so a composed forwarding
string of 32770 bytes — for which `insert_forwarding_data` panics via the
`unwrap` on the failed `MCString::new` instead of returning an error; the
operation is not total. -/
theorem c9_insert_forwarding_data_panics :
    insertForwardingData 10 bigHandshake emptyAddress 0 [] = .error .panicked := by
  apply insertForwardingData_panics_of_err
  apply mcStringNew_err_of_len_32770
  · have hsv : bigHandshake.serverAddress.value = List.replicate 32767 97 := rfl
    have hev : emptyAddress.value = [] := rfl
    rw [hsv, hev, buildForwardingData_no_properties]
    rw [(by decide : hexBytes 0 = [48])]
    rw [List.length_append, List.length_append, List.length_append, List.length_append,
        List.length_replicate]
    norm_num
  · decide

/-! ## Claim C10: unchecked length subtraction in the plugin-response reader -/

/-- C10: when the plugin-response body reader has consumed the connection
id, the has-payload byte `0x01` and the 32-byte signature, but the
declared payload length is smaller than that header size, the computation
`expected_length as usize - (connection_id.byte_size() + 1 + 32)` is an
unchecked `usize` subtraction: the run aborts by underflow (a panic in a
debug build; in a release build it wraps to a huge byte count whose
`read_exact` then fails) instead of returning an invalid-data error before
attempting to read. -/
theorem c10_velocity_read_length_underflow (expectedLength cid : VarIntT)
    (input r1 r2 : List Nat)
    (h1 : varIntRead input = .ok (cid, r1))
    (h2 : readU8 r1 = .ok (1, r2))
    (h4 : i32ToUsize expectedLength.value < cid.byteSize + 1 + 32)
    (h3 : 32 ≤ r2.length) :
    velocityResponseBodyRead expectedLength input = .error .panicked := by
  have hex : readExact 32 r2 = .ok (r2.take 32, r2.drop 32) := by
    unfold readExact
    rw [if_pos h3]
  unfold velocityResponseBodyRead
  rw [h1]
  simp only [exceptOkBind]
  rw [h2]
  simp only [exceptOkBind]
  rw [if_neg (by decide : ¬ (1 : Nat) ≠ 1)]
  rw [hex]
  simp only [exceptOkBind]
  rw [if_pos h4]

/-- Witness for C10: declared length 10, connection id byte `0x00`,
has-payload byte `0x01`, 32 zero signature bytes: the reader panics. -/
theorem c10_velocity_read_length_underflow_witness :
    varIntRead ([0, 1] ++ List.replicate 32 0) = .ok (⟨0, 1⟩, 1 :: List.replicate 32 0) ∧
    velocityResponseBodyRead ⟨10, 1⟩ ([0, 1] ++ List.replicate 32 0) = .error .panicked :=
  ⟨rfl, c10_velocity_read_length_underflow ⟨10, 1⟩ ⟨0, 1⟩ _ _ (List.replicate 32 0)
    rfl rfl (by decide) (by decide)⟩

/-! ## Claim C6: the HMAC-failure Disconnect -/

/-- C6 as stated is false: the body `Disconnect::reason` builds for the
HMAC-failure message is not the claimed whitespace-free byte sequence
(the `format!` template has a space after each colon and comma). -/
theorem c6_counterexample_body_has_spaces :
    disconnectReasonBody hmacFailReason ≠ claimedC6Body := by
  decide

/-- The body the code builds, as an explicit byte string. -/
theorem disconnectReasonBody_amended :
    disconnectReasonBody hmacFailReason = amendedC6Body := by
  decide

/-- For every fuel, writing the HMAC-failure Disconnect either runs out of
fuel or produces the frame `86 00 84 || body` (declared length 0x56,
packet ID 0x00, MCString length 0x54); in particular it is never an io
error. -/
theorem disconnectWire_hmacFail_char (fuel : Nat) :
    disconnectWire fuel hmacFailReason = .error .diverged ∨
    disconnectWire fuel hmacFailReason =
      .ok ([86, 0, 84] ++ disconnectReasonBody hmacFailReason) := by
  match fuel with
  | 0 => exact Or.inl rfl
  | 1 => exact Or.inl rfl
  | n + 2 => exact Or.inr rfl

/-- C6 amended: when HMAC verification of the plugin response fails, the
run terminates with no bytes ever written to the backend, and the last
write to the client is a Disconnect frame whose MCString body is exactly
`\x7b"text": "Failed to verify your identity, please rejoin the server",
"color": "red"\x7d` (the claimed bytes plus a space after each colon and
comma of the JSON wrapper). -/
theorem c6_hmac_failure_disconnect (fuel : Nat) (cid : Int) (secret input : List Nat)
    (out : HandleResult)
    (h : connectionHandle fuel cid secret input = out)
    (hout : out.outcome = .hmacFail) :
    out.backendWrites = [] ∧
    ∃ req, out.clientWrites = [req, [86, 0, 84] ++ amendedC6Body] := by
  unfold connectionHandle at h
  split at h
  any_goals (subst h; simp at hout; done)
  split at h
  · -- next_state = 1: the status path ends in statusSplicing or a failure
    split at h <;> (subst h; simp at hout)
  · split at h
    · -- next_state = 2: the login phase
      unfold loginPhase at h
      split at h
      any_goals (subst h; simp at hout; done)
      -- LoginStart was read; plugin request write
      split at h
      any_goals (subst h; simp at hout; done)
      -- await-response loop returned
      split at h
      any_goals (subst h; simp at hout; done)
      -- connection id check
      split at h
      any_goals (subst h; simp at hout; done)
      -- HMAC validation check
      split at h
      · -- validation failed: the Disconnect write
        split at h
        case _ heqdc =>
          subst h
          rcases disconnectWire_hmacFail_char fuel with hc | hc
          · rw [heqdc] at hc
            exact absurd hc (by simp)
          · rw [heqdc] at hc
            injection hc with hc
            exact ⟨rfl, _, by rw [hc, disconnectReasonBody_amended]⟩
        case _ heqdc =>
          subst h
          rcases disconnectWire_hmacFail_char fuel with hc | hc
          · rw [heqdc] at hc
            exact absurd hc (by simp)
          · rw [heqdc] at hc
            exact absurd hc (by simp)
        case _ heqdc => subst h; simp at hout
        case _ heqdc => subst h; simp at hout
      · -- validation succeeded: every later outcome differs from hmacFail
        split at h
        any_goals (subst_vars; simp_all; done)
        split at h
        any_goals (subst_vars; simp_all; done)
        split at h
        all_goals ((try simp only [] at h); split at h <;> (subst_vars; simp_all))
    · -- next_state = 3 or out of range
      split at h <;> (subst h; simp at hout)

/-! ## Claim C2: write order on the backend during login -/

/-- The accumulator of `buffer_until_response` collects exactly the stray
packets of the stream, appended behind whatever was already buffered — so
the buffer lists the framer's deferred packets in arrival order. -/
theorem bufferLoop_strayPackets (fuel : Nat) : ∀ (buf : List GenericPacketT)
    (input : List Nat) (b : List GenericPacketT) (r : VRespT) (rest : List Nat),
    bufferLoop fuel buf input = .ok b r rest →
    ∃ l, strayPackets fuel input = some (l, r, rest) ∧ b = buf ++ l := by
  induction fuel with
  | zero =>
    intro buf input b r rest h
    exact absurd h (by simp [bufferLoop])
  | succ n ih =>
    intro buf input b r rest h
    rw [bufferLoop] at h
    rw [strayPackets]
    cases hr : readVResp n input <;> rw [hr] at h <;> simp only [] at h ⊢
    case ok resp rest' =>
      cases h
      exact ⟨[], rfl, by simp⟩
    case ioErr => exact absurd h (by simp)
    case invalidPacketId expected got packet rest' =>
      obtain ⟨l, hl, hb⟩ := ih (buf ++ [packet]) rest' b r rest h
      rw [hl]
      exact ⟨packet :: l, rfl, by simp [hb]⟩
    case sizeMismatch expected got rest' =>
      by_cases hlt : expected < got
      · rw [if_pos hlt] at h
        exact absurd h (by simp)
      · rw [if_neg hlt] at h
        rw [if_neg hlt]
        exact ih buf rest' b r rest h
    case panicked => exact absurd h (by simp)
    case diverged => exact absurd h (by simp)

/-- When the buffered-packet write loop finishes without error, it has
appended one successful `write_packet` production per buffered packet, in
the buffer's order. -/
theorem writeBufferedAux_ok (fuel : Nat) : ∀ (l : List GenericPacketT)
    (acc ws : List (List Nat)), writeBufferedAux fuel l acc = (ws, none) →
    ∃ ws', ws = acc ++ ws' ∧
      List.Forall₂ (fun p w => writePacketManual fuel p = .ok w) l ws' := by
  intro l
  induction l with
  | nil =>
    intro acc ws h
    rw [writeBufferedAux] at h
    cases h
    exact ⟨[], by simp, List.Forall₂.nil⟩
  | cons p rest ih =>
    intro acc ws h
    rw [writeBufferedAux] at h
    cases hw : writePacketManual fuel p <;> rw [hw] at h
    case error e => exact absurd h (by simp)
    case ok w =>
      obtain ⟨ws', hws, hf⟩ := ih (acc ++ [w]) ws h
      exact ⟨w :: ws', by simp [hws], List.Forall₂.cons hw hf⟩

/-- C2: whenever a login-phase run reaches splicing, the packets written to
the backend are exactly: the rewritten Handshake, then the rewritten
LoginStart whose username was overwritten from the plugin response, then
one `write_packet` production per GenericPacket buffered during the
await-response loop, in the order those packets arrived on the client
stream (`strayPackets` reads them off the stream front to back). -/
theorem c2_backend_write_order (fuel : Nat) (cid : Int) (secret input : List Nat)
    (out : HandleResult) (proto : Int)
    (h : connectionHandle fuel cid secret input = out)
    (hout : out.outcome = .splicing proto) :
    ∃ hs r1 ls r2 reqBytes buffer resp rest hs' hsBytes lsBytes bufBytes,
      readPacketGeneral fuel handshakeBodyRead handshakeByteSize (some 0x00) input =
        .ok hs r1 ∧
      readPacketGeneral fuel loginStartBodyRead loginStartByteSize (some 0x00) r1 =
        .ok ls r2 ∧
      pluginRequestWire fuel cid = .ok reqBytes ∧
      strayPackets fuel r2 = some (buffer, resp, rest) ∧
      resp.connectionId.value = cid ∧
      vRespValidate resp secret = true ∧
      insertForwardingData fuel hs resp.clientAddress resp.playerUuid resp.properties =
        .ok hs' ∧
      handshakeWire fuel hs' = .ok hsBytes ∧
      loginStartWire fuel { ls with username := resp.username } = .ok lsBytes ∧
      List.Forall₂ (fun p w => writePacketManual fuel p = .ok w) buffer bufBytes ∧
      out.clientWrites = [reqBytes] ∧
      out.backendWrites = hsBytes :: lsBytes :: bufBytes := by
  unfold connectionHandle at h
  split at h
  any_goals (subst h; simp at hout; done)
  case _ hs r1 hhs =>
    split at h
    · -- next_state = 1: ends in statusSplicing or a failure
      split at h <;> (subst h; simp at hout)
    · split at h
      case _ hns =>
        -- next_state = 2: the login phase
        unfold loginPhase at h
        split at h
        any_goals (subst h; simp at hout; done)
        case _ ls r2 hls =>
          split at h
          any_goals (subst h; simp at hout; done)
          case _ reqBytes hreq =>
            split at h
            any_goals (subst h; simp at hout; done)
            case _ buffer resp rest hbuf =>
              split at h
              any_goals (subst h; simp at hout; done)
              case _ hcid =>
                split at h
                · -- validation failed: ends in hmacFail or worse
                  split at h <;> (subst h; simp at hout)
                · case _ hval =>
                  split at h
                  any_goals (subst h; simp at hout; done)
                  case _ hs' hins =>
                    split at h
                    any_goals (subst h; simp at hout; done)
                    case _ hsBytes hhw =>
                      split at h
                      all_goals ((try simp only [] at h); split at h)
                      any_goals (subst h; simp at hout; done)
                      case _ wsx ws hwb lsx lsBytes hlw =>
                        subst h
                        obtain ⟨l, hstray, hbl⟩ :=
                          bufferLoop_strayPackets fuel [] r2 buffer resp rest hbuf
                        obtain ⟨ws', hws, hforall⟩ :=
                          writeBufferedAux_ok fuel buffer [] ws hwb
                        simp only [List.nil_append] at hbl hws
                        subst hbl
                        subst hws
                        exact ⟨hs, r1, ls, r2, reqBytes, buffer, resp, rest, hs', hsBytes,
                          lsBytes, ws, hhs, hls, hreq, hstray, not_ne_iff.mp hcid,
                          by simpa using hval, hins, hhw, hlw, hforall, rfl, rfl⟩
      case _ =>
        -- next_state = 3 or out of range
        split at h <;> (subst h; simp at hout)

set_option maxRecDepth 100000 in
/-- Witness for C2: the concrete stream reaches splicing (protocol 765)
and the theorem applies. -/
theorem c2_backend_write_order_witness :
    ∃ hs r1 ls r2 reqBytes buffer resp rest hs' hsBytes lsBytes bufBytes,
      readPacketGeneral 40 handshakeBodyRead handshakeByteSize (some 0x00) c2Input =
        .ok hs r1 ∧
      readPacketGeneral 40 loginStartBodyRead loginStartByteSize (some 0x00) r1 =
        .ok ls r2 ∧
      pluginRequestWire 40 42 = .ok reqBytes ∧
      strayPackets 40 r2 = some (buffer, resp, rest) ∧
      resp.connectionId.value = 42 ∧
      vRespValidate resp (strBytes "secret") = true ∧
      insertForwardingData 40 hs resp.clientAddress resp.playerUuid resp.properties =
        .ok hs' ∧
      handshakeWire 40 hs' = .ok hsBytes ∧
      loginStartWire 40 { ls with username := resp.username } = .ok lsBytes ∧
      List.Forall₂ (fun p w => writePacketManual 40 p = .ok w) buffer bufBytes ∧
      (connectionHandle 40 42 (strBytes "secret") c2Input).clientWrites = [reqBytes] ∧
      (connectionHandle 40 42 (strBytes "secret") c2Input).backendWrites =
        hsBytes :: lsBytes :: bufBytes :=
  c2_backend_write_order 40 42 (strBytes "secret") c2Input
    (connectionHandle 40 42 (strBytes "secret") c2Input) 765 rfl (by decide)

set_option maxRecDepth 100000 in
/-- Witness for the amended C6 on the concrete zero-signature stream. -/
theorem c6_hmac_failure_disconnect_witness :
    (connectionHandle 40 42 (strBytes "secret") c6Input).outcome = .hmacFail ∧
    (connectionHandle 40 42 (strBytes "secret") c6Input).backendWrites = [] ∧
    ∃ req, (connectionHandle 40 42 (strBytes "secret") c6Input).clientWrites =
      [req, [86, 0, 84] ++ amendedC6Body] := by
  have h := c6_hmac_failure_disconnect 40 42 (strBytes "secret") c6Input
    (connectionHandle 40 42 (strBytes "secret") c6Input) rfl (by decide)
  exact ⟨by decide, h.1, h.2⟩

end MFTP
